import Mathlib

set_option maxRecDepth 100000
set_option maxHeartbeats 2000000

/-!
Verification of the prompt-templating and error-diagnostic core of the
`tval` / `tonic_validate` RAG-evaluation library.

The development shallowly embeds the two prompt-template modules
(`src/tonic_validate/utils/llm_calls.py` and `src/tval/llm_calls.py`) and the
PII metric (`src/tonic_validate/metrics/answer_contains_pii_metric.py`).
Python strings are Lean `String`s, Python ints are Lean `Int`s, the external
OpenAI service is a record of its two consumed operations, and Python
exceptions are modelled with `Except`.
-/

/-- The exception taxonomy relevant to the llm-call functions: a
`ContextLengthException` carrying its message, or any other exception.
`except ContextLengthException` clauses catch exactly the first constructor. -/
inductive TvalError where
  | contextLength (msg : String)
  | other (msg : String)
deriving DecidableEq, Repr

/-- The consumed surface of `OpenAIService`: `get_response` (which may raise,
modelled by `Except`) and `get_token_count`. Token counts are Python ints,
modelled as `Int` so that the residual subtraction is exact. -/
structure OpenAIService where
  getResponse : String → Except TvalError String
  getTokenCount : String → Int

/-! ## Prompt builders of `src/tonic_validate/utils/llm_calls.py` -/

/-- Fixed intro wording of `similarity_score_call` (lines 33-38). -/
def similarityIntro : String :=
  "Considering the reference answer and the new answer to the following " ++
  "question, on a scale of 0 to 5, where 5 means the same and 0 means not at all " ++
  "similar, how similar in meaning is the new answer to the reference answer? " ++
  "Respond with just a number and no additional text."

/-- The `main_message` built by `similarity_score_call` (lines 33-41). -/
def similarityMainMessage (question referenceAnswer llmAnswer : String) : String :=
  similarityIntro ++ "\nQUESTION: " ++ question ++ "\n" ++
    "REFERENCE ANSWER: " ++ referenceAnswer ++ "\n" ++
    "NEW ANSWER: " ++ llmAnswer ++ "\n"

/-- One loop iteration of the context-list rendering:
`f"\n\nCONTEXT {i}:\n{context}\nEND OF CONTEXT {i}"`. -/
def contextBlock (i : Nat) (context : String) : String :=
  "\n\nCONTEXT " ++ toString i ++ ":\n" ++ context ++
    "\nEND OF CONTEXT " ++ toString i

/-- The `for i, context in enumerate(context_list)` accumulation loop shared by
the consistency and derivation builders. -/
def appendContextBlocks (msg : String) (contextList : List String) : String :=
  contextList.enum.foldl (fun acc p => acc ++ contextBlock p.1 p.2) msg

/-- Fixed intro wording of `answer_consistent_with_context_call` (lines 90-97). -/
def consistencyIntro : String :=
  "Consider the following list of context and answer. The answer answers a " ++
  "user\x27s query using the context. Determine whether the answer contains any " ++
  "information that cannot be attributed to the information in the list of " ++
  "context. If the answer contains information that cannot be attributed to the " ++
  "context then respond with false. Otherwise respond with true. Respond with " ++
  "either true or false and no additional text."

/-- The `main_message` built by `answer_consistent_with_context_call`
(lines 90-100). -/
def answerConsistentMainMessage (answer : String) (contextList : List String) : String :=
  appendContextBlocks consistencyIntro contextList ++ "\n\nANSWER: " ++ answer

/-- Fixed intro wording of `context_relevancy_call` (lines 148-154). -/
def relevanceIntro : String :=
  "Considering the following question and context, determine whether the context " ++
  "is relevant for answering the question. If the context is relevant for " ++
  "answering the question, respond with true. If the context is not relevant for " ++
  "answering the question, respond with false. Respond with either true or false " ++
  "and no additional text."

/-- The `main_message` built by `context_relevancy_call` (lines 148-156). -/
def contextRelevancyMainMessage (question context : String) : String :=
  relevanceIntro ++ "\nQUESTION: " ++ question ++ "\n" ++
    "CONTEXT: " ++ context ++ "\n"

/-- Fixed intro wording of `answer_contains_context_call` (lines 200-206). -/
def containmentIntro : String :=
  "Considering the following answer and context, determine whether the answer " ++
  "contains information derived from the context. If the answer contains " ++
  "information derived from the context, respond with true. If the answer does " ++
  "not contain information derived from the context, respond with false. " ++
  "Respond with either true or false and no additional text."

/-- The `main_message` built by `answer_contains_context_call` (lines 200-208). -/
def answerContainsContextMainMessage (answer context : String) : String :=
  containmentIntro ++ "\nANSWER: " ++ answer ++ "\n" ++
    "CONTEXT: " ++ context ++ "\n"

/-- Fixed intro wording of `main_points_call` (lines 250-255). -/
def mainPointsIntro : String :=
  "Using a bulleted list in markdown (so each bullet is a \x27*\x27), write down the " ++
  "main points in the following answer to a user\x27s query. Respond with the " ++
  "bulleted list and no additional text. Only use a single \x27*\x27 for each bullet " ++
  "and do not use a \x27*\x27 anywhere in your response except for the bullets."

/-- The `main_message` built by `main_points_call` (lines 250-256). -/
def mainPointsMainMessage (answer : String) : String :=
  mainPointsIntro ++ "\nANSWER: " ++ answer

/-- Fixed intro wording of `statement_derived_from_context_call` (lines 300-305). -/
def derivationIntro : String :=
  "Considering the following statement and then list of context, determine " ++
  "whether the statement can be derived from the context. If the statement can " ++
  "be derived from the context response with true. Otherwise response with " ++
  "false. Respond with either true or false and no additional text."

/-- The `main_message` built by `statement_derived_from_context_call`
(lines 300-308). -/
def statementDerivedMainMessage (statement : String) (contextList : List String) : String :=
  appendContextBlocks
    (derivationIntro ++ "\n\nSTATEMENT:\n" ++ statement ++ "\nEND OF STATEMENT")
    contextList

/-- Fixed intro wording of `contains_duplicate_information` (lines 354-359). -/
def duplicateIntro : String :=
  "Considering the following statement, determine whether the statement contains " ++
  "duplicate information. If the statement contains duplicate information, respond " ++
  "with \x27true\x27. If the statement does not contain duplicate information, respond " ++
  "with \x27false\x27. Respond with either \x27true\x27 or \x27false\x27 and no additional text."

/-- The `main_message` built by `contains_duplicate_information` (lines 354-360). -/
def containsDuplicateMainMessage (statement : String) : String :=
  duplicateIntro ++ "\n\nSTATEMENT:\n" ++ statement ++ "\nEND OF STATEMENT"

/-! ## Context-length recovery messages and the call functions -/

/-- One token-count line of a breakdown message:
`f"\n{label} tokens: {count}"`. -/
def tokenLine (label : String) (count : Int) : String :=
  "\n" ++ label ++ " tokens: " ++ toString count

/-- The common shape of every re-raised `ContextLengthException` message: a
task-specific header, the original error `e` between dashed separators, and
the labelled token-count lines. -/
def breakdownMessage (header e : String) (lines : List (String × Int)) : String :=
  header ++ "\n----------" ++ "\n" ++ e ++ "\n----------" ++
    "\nSee details below for breakdown of token counts" ++
    String.join (lines.map fun p => tokenLine p.1 p.2)

/-- The message of the `ContextLengthException` re-raised by
`similarity_score_call` (lines 53-64). `e` is the original error's message. -/
def similarityOverflowMessage (e : String)
    (questionTokens referenceAnswerTokens llmAnswerTokens
      basePromptTokens totalTokens : Int) : String :=
  breakdownMessage
    "Similarity score prompt too long to score item. OpenAI returned the following error message"
    e
    [("Question", questionTokens), ("Reference answer", referenceAnswerTokens),
      ("New answer", llmAnswerTokens), ("Base prompt", basePromptTokens),
      ("Total", totalTokens)]

/-- Function `similarity_score_call` (lines 9-66): build the prompt, call the service;
on `ContextLengthException` re-raise with the token breakdown; other errors
propagate unchanged. -/
def similarity_score_call (question referenceAnswer llmAnswer : String)
    (openaiService : OpenAIService) : Except TvalError String :=
  let mainMessage := similarityMainMessage question referenceAnswer llmAnswer
  match openaiService.getResponse mainMessage with
  | Except.ok responseMessage => Except.ok responseMessage
  | Except.error (TvalError.contextLength e) =>
      let questionTokens := openaiService.getTokenCount question
      let referenceAnswerTokens := openaiService.getTokenCount referenceAnswer
      let llmAnswerTokens := openaiService.getTokenCount llmAnswer
      let totalTokens := openaiService.getTokenCount mainMessage
      let basePromptTokens :=
        totalTokens - questionTokens - referenceAnswerTokens - llmAnswerTokens
      Except.error (TvalError.contextLength
        (similarityOverflowMessage e questionTokens referenceAnswerTokens
          llmAnswerTokens basePromptTokens totalTokens))
  | Except.error err => Except.error err

/-- The message of the `ContextLengthException` re-raised by
`answer_consistent_with_context_call` (lines 111-121). Note the single
aggregated `Context tokens` line. -/
def consistencyOverflowMessage (e : String)
    (answerTokens contextTokens basePromptTokens totalTokens : Int) : String :=
  breakdownMessage
    "Consistency prompt too long to score item. OpenAI returned the following error message"
    e
    [("Answer", answerTokens), ("Context", contextTokens),
      ("Base prompt", basePromptTokens), ("Total", totalTokens)]

/-- The `context_tokens` accumulation loop of the consistency and derivation
recovery paths (lines 106-108 and 314-316). -/
def sumContextTokens (tc : String → Int) (contextList : List String) : Int :=
  contextList.foldl (fun acc context => acc + tc context) 0

/-- Function `answer_consistent_with_context_call` (lines 69-123). -/
def answer_consistent_with_context_call (answer : String) (contextList : List String)
    (openaiService : OpenAIService) : Except TvalError String :=
  let mainMessage := answerConsistentMainMessage answer contextList
  match openaiService.getResponse mainMessage with
  | Except.ok responseMessage => Except.ok responseMessage
  | Except.error (TvalError.contextLength e) =>
      let answerTokens := openaiService.getTokenCount answer
      let contextTokens := sumContextTokens openaiService.getTokenCount contextList
      let totalTokens := openaiService.getTokenCount mainMessage
      let basePromptTokens := totalTokens - contextTokens - answerTokens
      Except.error (TvalError.contextLength
        (consistencyOverflowMessage e answerTokens contextTokens
          basePromptTokens totalTokens))
  | Except.error err => Except.error err

/-- The message of the `ContextLengthException` re-raised by
`context_relevancy_call` (lines 165-175). -/
def relevanceOverflowMessage (e : String)
    (questionTokens contextTokens basePromptTokens totalTokens : Int) : String :=
  breakdownMessage
    "Relevance prompt too long to score item. OpenAI returned the following error message"
    e
    [("Question", questionTokens), ("Context", contextTokens),
      ("Base prompt", basePromptTokens), ("Total", totalTokens)]

/-- Function `context_relevancy_call` (lines 126-177). -/
def context_relevancy_call (question context : String)
    (openaiService : OpenAIService) : Except TvalError String :=
  let mainMessage := contextRelevancyMainMessage question context
  match openaiService.getResponse mainMessage with
  | Except.ok responseMessage => Except.ok responseMessage
  | Except.error (TvalError.contextLength e) =>
      let questionTokens := openaiService.getTokenCount question
      let contextTokens := openaiService.getTokenCount context
      let totalTokens := openaiService.getTokenCount mainMessage
      let basePromptTokens := totalTokens - questionTokens - contextTokens
      Except.error (TvalError.contextLength
        (relevanceOverflowMessage e questionTokens contextTokens
          basePromptTokens totalTokens))
  | Except.error err => Except.error err

/-- The message of the `ContextLengthException` re-raised by
`answer_contains_context_call` (lines 217-227). -/
def containmentOverflowMessage (e : String)
    (answerTokens contextTokens basePromptTokens totalTokens : Int) : String :=
  breakdownMessage
    "Contains context prompt too long to score item. OpenAI returned the following error message"
    e
    [("Answer", answerTokens), ("Context", contextTokens),
      ("Base prompt", basePromptTokens), ("Total", totalTokens)]

/-- Function `answer_contains_context_call` (lines 180-229). -/
def answer_contains_context_call (answer context : String)
    (openaiService : OpenAIService) : Except TvalError String :=
  let mainMessage := answerContainsContextMainMessage answer context
  match openaiService.getResponse mainMessage with
  | Except.ok responseMessage => Except.ok responseMessage
  | Except.error (TvalError.contextLength e) =>
      let answerTokens := openaiService.getTokenCount answer
      let contextTokens := openaiService.getTokenCount context
      let totalTokens := openaiService.getTokenCount mainMessage
      let basePromptTokens := totalTokens - answerTokens - contextTokens
      Except.error (TvalError.contextLength
        (containmentOverflowMessage e answerTokens contextTokens
          basePromptTokens totalTokens))
  | Except.error err => Except.error err

/-- The message of the `ContextLengthException` re-raised by
`main_points_call` (lines 264-273). -/
def mainPointsOverflowMessage (e : String)
    (answerTokens basePromptTokens totalTokens : Int) : String :=
  breakdownMessage
    "Main points prompt too long to score item. OpenAI returned the following error message"
    e
    [("Answer", answerTokens), ("Base prompt", basePromptTokens),
      ("Total", totalTokens)]

/-- Function `main_points_call` (lines 232-275). -/
def main_points_call (answer : String)
    (openaiService : OpenAIService) : Except TvalError String :=
  let mainMessage := mainPointsMainMessage answer
  match openaiService.getResponse mainMessage with
  | Except.ok responseMessage => Except.ok responseMessage
  | Except.error (TvalError.contextLength e) =>
      let answerTokens := openaiService.getTokenCount answer
      let totalTokens := openaiService.getTokenCount mainMessage
      let basePromptTokens := totalTokens - answerTokens
      Except.error (TvalError.contextLength
        (mainPointsOverflowMessage e answerTokens basePromptTokens totalTokens))
  | Except.error err => Except.error err

/-- The message of the `ContextLengthException` re-raised by
`statement_derived_from_context_call` (lines 319-329). Note the single
aggregated `Context tokens` line. -/
def derivationOverflowMessage (e : String)
    (statementTokens contextTokens basePromptTokens totalTokens : Int) : String :=
  breakdownMessage
    "Derived from context prompt too long to score item. OpenAI returned the following error message"
    e
    [("Statement", statementTokens), ("Context", contextTokens),
      ("Base prompt", basePromptTokens), ("Total", totalTokens)]

/-- Function `statement_derived_from_context_call` (lines 278-331). -/
def statement_derived_from_context_call (statement : String) (contextList : List String)
    (openaiService : OpenAIService) : Except TvalError String :=
  let mainMessage := statementDerivedMainMessage statement contextList
  match openaiService.getResponse mainMessage with
  | Except.ok responseMessage => Except.ok responseMessage
  | Except.error (TvalError.contextLength e) =>
      let statementTokens := openaiService.getTokenCount statement
      let contextTokens := sumContextTokens openaiService.getTokenCount contextList
      let totalTokens := openaiService.getTokenCount mainMessage
      let basePromptTokens := totalTokens - contextTokens - statementTokens
      Except.error (TvalError.contextLength
        (derivationOverflowMessage e statementTokens contextTokens
          basePromptTokens totalTokens))
  | Except.error err => Except.error err

/-- The message of the `ContextLengthException` re-raised by
`contains_duplicate_information` (lines 368-377). -/
def duplicateOverflowMessage (e : String)
    (statementTokens basePromptTokens totalTokens : Int) : String :=
  breakdownMessage
    "Duplicate information prompt too long to score item. OpenAI returned the following error message"
    e
    [("Statement", statementTokens), ("Base prompt", basePromptTokens),
      ("Total", totalTokens)]

/-- Function `contains_duplicate_information` (lines 334-379). -/
def contains_duplicate_information (statement : String)
    (openaiService : OpenAIService) : Except TvalError String :=
  let mainMessage := containsDuplicateMainMessage statement
  match openaiService.getResponse mainMessage with
  | Except.ok responseMessage => Except.ok responseMessage
  | Except.error (TvalError.contextLength e) =>
      let statementTokens := openaiService.getTokenCount statement
      let totalTokens := openaiService.getTokenCount mainMessage
      let basePromptTokens := totalTokens - statementTokens
      Except.error (TvalError.contextLength
        (duplicateOverflowMessage e statementTokens basePromptTokens totalTokens))
  | Except.error err => Except.error err

/-! ## Token-budget diagnostics, packaged

The spec's `TokenBudgetReport` packages the local variables computed in each
`except ContextLengthException` block: the labelled per-segment counts, the
total count of the rendered prompt, and the residual base-prompt count. -/

/-- A token-budget diagnostic: labelled segment counts, the derived
base-prompt count, and the total count. -/
structure TokenBudgetReport where
  segments : List (String × Int)
  base_prompt_tokens : Int
  total_tokens : Int

/-- The diagnostic computed by `similarity_score_call` (lines 46-52). -/
def similarityTokenReport (tc : String → Int)
    (question referenceAnswer llmAnswer : String) : TokenBudgetReport :=
  let questionTokens := tc question
  let referenceAnswerTokens := tc referenceAnswer
  let llmAnswerTokens := tc llmAnswer
  let totalTokens := tc (similarityMainMessage question referenceAnswer llmAnswer)
  { segments := [("Question", questionTokens),
      ("Reference answer", referenceAnswerTokens), ("New answer", llmAnswerTokens)],
    base_prompt_tokens :=
      totalTokens - questionTokens - referenceAnswerTokens - llmAnswerTokens,
    total_tokens := totalTokens }

/-- The diagnostic computed by `answer_consistent_with_context_call`
(lines 105-110): the context tokens are a single aggregated segment. -/
def consistencyTokenReport (tc : String → Int)
    (answer : String) (contextList : List String) : TokenBudgetReport :=
  let answerTokens := tc answer
  let contextTokens := sumContextTokens tc contextList
  let totalTokens := tc (answerConsistentMainMessage answer contextList)
  { segments := [("Answer", answerTokens), ("Context", contextTokens)],
    base_prompt_tokens := totalTokens - contextTokens - answerTokens,
    total_tokens := totalTokens }

/-- The diagnostic computed by `context_relevancy_call` (lines 161-164). -/
def relevanceTokenReport (tc : String → Int)
    (question context : String) : TokenBudgetReport :=
  let questionTokens := tc question
  let contextTokens := tc context
  let totalTokens := tc (contextRelevancyMainMessage question context)
  { segments := [("Question", questionTokens), ("Context", contextTokens)],
    base_prompt_tokens := totalTokens - questionTokens - contextTokens,
    total_tokens := totalTokens }

/-- The diagnostic computed by `answer_contains_context_call` (lines 213-216). -/
def containmentTokenReport (tc : String → Int)
    (answer context : String) : TokenBudgetReport :=
  let answerTokens := tc answer
  let contextTokens := tc context
  let totalTokens := tc (answerContainsContextMainMessage answer context)
  { segments := [("Answer", answerTokens), ("Context", contextTokens)],
    base_prompt_tokens := totalTokens - answerTokens - contextTokens,
    total_tokens := totalTokens }

/-- The diagnostic computed by `main_points_call` (lines 261-263). -/
def mainPointsTokenReport (tc : String → Int) (answer : String) : TokenBudgetReport :=
  let answerTokens := tc answer
  let totalTokens := tc (mainPointsMainMessage answer)
  { segments := [("Answer", answerTokens)],
    base_prompt_tokens := totalTokens - answerTokens,
    total_tokens := totalTokens }

/-- The diagnostic computed by `statement_derived_from_context_call`
(lines 313-318): the context tokens are a single aggregated segment. -/
def derivationTokenReport (tc : String → Int)
    (statement : String) (contextList : List String) : TokenBudgetReport :=
  let statementTokens := tc statement
  let contextTokens := sumContextTokens tc contextList
  let totalTokens := tc (statementDerivedMainMessage statement contextList)
  { segments := [("Statement", statementTokens), ("Context", contextTokens)],
    base_prompt_tokens := totalTokens - contextTokens - statementTokens,
    total_tokens := totalTokens }

/-- The diagnostic computed by `contains_duplicate_information` (lines 365-367). -/
def duplicateTokenReport (tc : String → Int) (statement : String) : TokenBudgetReport :=
  let statementTokens := tc statement
  let totalTokens := tc (containsDuplicateMainMessage statement)
  { segments := [("Statement", statementTokens)],
    base_prompt_tokens := totalTokens - statementTokens,
    total_tokens := totalTokens }

/-! ## The PII metric (`src/tonic_validate/metrics/answer_contains_pii_metric.py`) -/

/-- One entry of the redaction collaborator's reply; only `label` is consumed. -/
structure DeIdentifyResult where
  label : String

/-- The redaction collaborator's reply. -/
structure RedactResponse where
  de_identify_results : List DeIdentifyResult

/-- The scored response: the RAG answer and the retrieved context list. -/
structure LLMResponse where
  llm_answer : String
  llm_context_list : List String

/-- The constructor's normalization of the requested PII types (line 23):
`self.pii_types = [p.lower() for p in pii_types]`. -/
def lowerPiiTypes (pii_types : List String) : List String :=
  pii_types.map String.toLower

/-- The `ValueError` message raised on any redaction-communication failure
(line 41). -/
def piiCommunicationErrorMessage : String :=
  "Cannot compute AnswerContainsPiiMetric. Error occured communicating with Textual.  " ++
  "Please try again later or reach out via GitHub issues."

/-- Method `AnswerContainsPiiMetric.metric_callback` (lines 33-41). The redaction
collaborator `redact` models `self.textual.redact` and may fail (`Except`);
`pii_types_lower` is the constructor-lowercased `self.pii_types`. The float
scores 1.0 / 0.0 are modelled as 1 / 0. The early-returning `for` loop over
`response.de_identify_results` is `List.any`. -/
def metric_callback (pii_types_lower : List String)
    (redact : String → Except String RedactResponse)
    (llm_response : LLMResponse) : Except String Nat :=
  match redact (String.intercalate "\n" llm_response.llm_context_list) with
  | Except.ok response =>
      if response.de_identify_results.any
          (fun d => pii_types_lower.contains d.label.toLower) then
        Except.ok 1
      else
        Except.ok 0
  | Except.error _ => Except.error piiCommunicationErrorMessage

/-! ## The older template module `src/tval/llm_calls.py`

Its templates are triple-quoted Python strings post-processed with
`.replace(NEWLINE_INDENT_STRING, " ").strip()`. We model Python's
`str.replace` (leftmost, non-overlapping) and `str.strip` on the character
list, with a fuel argument bounding the scan by the string length. -/

/-- Leftmost non-overlapping replacement of a non-empty `pattern` by `repl`,
fuelled by the length of the scanned list (each step consumes at least one
character, so `fuel = length` suffices). -/
def replaceFuel (pattern repl : List Char) : Nat → List Char → List Char
  | _, [] => []
  | 0, l => l
  | fuel + 1, c :: rest =>
      if pattern.isPrefixOf (c :: rest) then
        repl ++ replaceFuel pattern repl fuel (List.drop pattern.length (c :: rest))
      else
        c :: replaceFuel pattern repl fuel rest

/-- Python `s.replace(pattern, repl)` for non-empty `pattern`. -/
def pyReplace (s pattern repl : String) : String :=
  String.mk (replaceFuel pattern.data repl.data s.data.length s.data)

/-- Python `s.strip()`: remove leading and trailing whitespace. -/
def pyStrip (s : String) : String :=
  String.mk
    (((s.data.dropWhile Char.isWhitespace).reverse.dropWhile Char.isWhitespace).reverse)

/-- Constant `NEWLINE_INDENT_STRING` (tval line 8). -/
def NEWLINE_INDENT_STRING : String := "\n    "

/-- The raw triple-quoted template of `ask_for_similarity_score`
(tval lines 33-38). -/
def tvalSimilarityRaw : String :=
  "\n    Considering the reference answer and the new answer to the following question, on" ++
  "\n    a scale of 0 to 5, where 5 means the same and 0 means not similar, how similar in" ++
  "\n    meaning is the new answer to the reference answer? Respond with just a number and" ++
  "\n    no additional text.\n    "

/-- The processed intro of `ask_for_similarity_score` (tval lines 33-40). -/
def tvalSimilarityIntro : String :=
  pyStrip (pyReplace tvalSimilarityRaw NEWLINE_INDENT_STRING " ")

/-- The `main_message` built by `ask_for_similarity_score` (tval lines 33-43). -/
def askForSimilarityScoreMessage (question referenceAnswer llmAnswer : String) : String :=
  tvalSimilarityIntro ++ "\nQUESTION: " ++ question ++ "\n" ++
    "REFERENCE ANSWER: " ++ referenceAnswer ++ "\n" ++
    "NEW ANSWER: " ++ llmAnswer ++ "\n"

/-- The raw triple-quoted template of
`ask_whether_answer_is_consistent_with_context` (tval lines 71-78). -/
def tvalConsistencyRaw : String :=
  "\n    Considering the following list of context and then answer, which answers a" ++
  "\n    user\x27s query using the context, determine whether the answer contains any" ++
  "\n    information that can not be attributed to the intormation in the list of" ++
  "\n    context. If the answer contains information that cannot be attributed to the" ++
  "\n    context then respond with true. Otherwise response with false. Response with" ++
  "\n    either true or false and no additional text.\n    "

/-- The processed intro of `ask_whether_answer_is_consistent_with_context`. -/
def tvalConsistencyIntro : String :=
  pyStrip (pyReplace tvalConsistencyRaw NEWLINE_INDENT_STRING " ")

/-- The `main_message` built by `ask_whether_answer_is_consistent_with_context`
(tval lines 71-83). -/
def askWhetherAnswerConsistentMessage (answer : String) (contextList : List String) : String :=
  appendContextBlocks tvalConsistencyIntro contextList ++ "\n\nANSWER: " ++ answer

/-- The raw triple-quoted template of `ask_whether_context_is_relevant`
(tval lines 108-114). -/
def tvalRelevanceRaw : String :=
  "\n    Considering the following question and context, determine whether the context" ++
  "\n    is relevant for answering the question. If the context is relevant for answering" ++
  "\n    the question, responsd with true. If the context is not relevant for answering" ++
  "\n    the question, respond with false. Respond with either true or false and no" ++
  "\n    additinal text.\n    "

/-- The processed intro of `ask_whether_context_is_relevant`. -/
def tvalRelevanceIntro : String :=
  pyStrip (pyReplace tvalRelevanceRaw NEWLINE_INDENT_STRING " ")

/-- The `main_message` built by `ask_whether_context_is_relevant`
(tval lines 108-118). -/
def askWhetherContextRelevantMessage (question context : String) : String :=
  tvalRelevanceIntro ++ "\nQUESTION: " ++ question ++ "\n" ++
    "CONTEXT: " ++ context ++ "\n"

/-- The raw triple-quoted template of `ask_whether_answer_contains_context`
(tval lines 143-148). -/
def tvalContainmentRaw : String :=
  "\n    Considering the following answer and context, determine whether the answer" ++
  "\n    contains information derived from the context. If the answer contains" ++
  "\n    information derived from the context, respond with true. If the answer does not" ++
  "\n    contain information derived from the context, respond with false.  Respond with" ++
  "\n    either true or false and no additinal text.\n    "

/-- The processed intro of `ask_whether_answer_contains_context`. -/
def tvalContainmentIntro : String :=
  pyStrip (pyReplace tvalContainmentRaw NEWLINE_INDENT_STRING " ")

/-- The `main_message` built by `ask_whether_answer_contains_context`
(tval lines 143-153). -/
def askWhetherAnswerContainsContextMessage (answer context : String) : String :=
  tvalContainmentIntro ++ "\nANSWER: " ++ answer ++ "\n" ++
    "CONTEXT: " ++ context ++ "\n"

/-- The raw triple-quoted template of `ask_for_main_points`
(tval lines 176-181). -/
def tvalMainPointsRaw : String :=
  "\n    Write down in a bulleted list using markdown (so each bullet is a \"*\"), the main" ++
  "\n    points in the following answer to a user\x27s query. Respond with the bulleted list" ++
  "\n    and no additional text. Only use a single \"*\" for each bullet and do not use a \"*\"" ++
  "\n    anywhere in your response except for the bullets.\n    "

/-- The processed intro of `ask_for_main_points`. -/
def tvalMainPointsIntro : String :=
  pyStrip (pyReplace tvalMainPointsRaw NEWLINE_INDENT_STRING " ")

/-- The `main_message` built by `ask_for_main_points` (tval lines 176-184). -/
def askForMainPointsMessage (answer : String) : String :=
  tvalMainPointsIntro ++ "\nANSWER: " ++ answer

/-- The raw triple-quoted template of
`ask_whether_statement_derived_from_context` (tval lines 211-216). -/
def tvalDerivationRaw : String :=
  "\n    Considering the following statement and then list of context, determine whether the" ++
  "\n    statement can be derived from the context. If the statement can be derived from the" ++
  "\n    context response with true. Otherwise response with false. Respond with either true" ++
  "\n    or false and no additional text.\n    "

/-- The processed intro of `ask_whether_statement_derived_from_context`. -/
def tvalDerivationIntro : String :=
  pyStrip (pyReplace tvalDerivationRaw NEWLINE_INDENT_STRING " ")

/-- The `main_message` built by `ask_whether_statement_derived_from_context`
(tval lines 211-221). -/
def askWhetherStatementDerivedMessage (statement : String) (contextList : List String) : String :=
  appendContextBlocks
    (tvalDerivationIntro ++ "\n\nSTATEMENT:\n" ++ statement ++ "\nEND OF STATEMENT")
    contextList

/-! ## Spec-side characterizations and shared lemmas -/

/-- The in-order concatenation of numbered context blocks, starting at index
`i`: block `i` is paired with the head of the list, block `i + 1` with the
next entry, and so on. `numberedContextBlocks 0 l` renders exactly
`l.length` blocks numbered `0 .. l.length - 1` in input order. -/
def numberedContextBlocks : Nat → List String → String
  | _, [] => ""
  | i, c :: cs => contextBlock i c ++ numberedContextBlocks (i + 1) cs

/-- Predicate: `needle` occurs verbatim as a contiguous substring of `hay`. -/
def strOccurs (needle hay : String) : Prop :=
  ∃ pre post, hay = pre ++ needle ++ post

/-- Number of positions of `hay` at which `needle` occurs (for non-empty
`needle`, the number of its occurrences in `hay`). -/
def countSubstr (needle : List Char) : List Char → Nat
  | [] => 0
  | c :: rest =>
      (if needle.isPrefixOf (c :: rest) then 1 else 0) + countSubstr needle rest

theorem strOccurs_of_eq (pre needle post hay : String)
    (h : hay = pre ++ needle ++ post) : strOccurs needle hay :=
  ⟨pre, post, h⟩

theorem strOccurs_append_left (needle hay s : String) (h : strOccurs needle hay) :
    strOccurs needle (hay ++ s) := by
  obtain ⟨pre, post, rfl⟩ := h
  exact ⟨pre, post ++ s, by simp [String.append_assoc]⟩

theorem strOccurs_append_right (needle hay s : String) (h : strOccurs needle hay) :
    strOccurs needle (s ++ hay) := by
  obtain ⟨pre, post, rfl⟩ := h
  exact ⟨s ++ pre, post, by simp [String.append_assoc]⟩

theorem foldl_enumFrom_contextBlock (l : List String) :
    ∀ (k : Nat) (msg : String),
      (List.enumFrom k l).foldl (fun acc p => acc ++ contextBlock p.1 p.2) msg =
        msg ++ numberedContextBlocks k l := by
  induction l with
  | nil => intro k msg; simp [numberedContextBlocks, List.enumFrom]
  | cons c cs ih =>
      intro k msg
      simp only [List.enumFrom, List.foldl_cons, numberedContextBlocks, ih,
        String.append_assoc]

/-- The accumulation loop over `enumerate(context_list)` renders the intro
followed by the numbered blocks in input order. -/
theorem appendContextBlocks_eq (msg : String) (l : List String) :
    appendContextBlocks msg l = msg ++ numberedContextBlocks 0 l :=
  foldl_enumFrom_contextBlock l 0 msg

theorem str_empty_append (s : String) : "" ++ s = s := rfl

/-- Block `k + i` of `numberedContextBlocks k l` is paired with entry `i` of
`l`. -/
theorem numberedContextBlocks_occurs :
    ∀ (l : List String) (k i : Nat) (hi : i < l.length),
      strOccurs (contextBlock (k + i) (l.get ⟨i, hi⟩)) (numberedContextBlocks k l) := by
  intro l
  induction l with
  | nil => intro k i hi; exact absurd hi (Nat.not_lt_zero i)
  | cons c cs ih =>
      intro k i hi
      match i with
      | 0 =>
          refine ⟨"", numberedContextBlocks (k + 1) cs, ?_⟩
          rw [str_empty_append]
          rfl
      | Nat.succ j =>
          have hj : j < cs.length := Nat.lt_of_succ_lt_succ hi
          have h := ih (k + 1) j hj
          have h2 := strOccurs_append_right _ _ (contextBlock k c) h
          have hidx : k + 1 + j = k + Nat.succ j := by omega
          rw [hidx] at h2
          exact h2

theorem strOccurs_self_append (a b : String) : strOccurs a (a ++ b) :=
  ⟨"", b, by rw [str_empty_append]⟩

theorem str_foldl_append : ∀ (l : List String) (init : String),
    l.foldl (fun r s => r ++ s) init = init ++ l.foldl (fun r s => r ++ s) "" := by
  intro l
  induction l with
  | nil => intro init; simp [List.foldl, String.append_empty]
  | cons a l ih =>
      intro init
      simp only [List.foldl_cons]
      rw [ih (init ++ a), ih ("" ++ a), str_empty_append, String.append_assoc]

theorem str_join_cons (a : String) (l : List String) :
    String.join (a :: l) = a ++ String.join l := by
  simp only [String.join, List.foldl_cons]
  rw [str_foldl_append, str_empty_append]

theorem strOccurs_join_of_mem (f : String × Int → String) :
    ∀ (lines : List (String × Int)) (p : String × Int), p ∈ lines →
      strOccurs (f p) (String.join (lines.map f)) := by
  intro lines
  induction lines with
  | nil => intro p hp; simp at hp
  | cons q qs ih =>
      intro p hp
      rcases List.mem_cons.mp hp with h | h
      · subst h
        rw [List.map_cons, str_join_cons]
        exact strOccurs_self_append (f p) (String.join (qs.map f))
      · rw [List.map_cons, str_join_cons]
        exact strOccurs_append_right _ _ (f q) (ih p h)

/-- Every breakdown message embeds the original collaborator error verbatim. -/
theorem breakdownMessage_embeds_error (header e : String) (lines : List (String × Int)) :
    strOccurs e (breakdownMessage header e lines) := by
  refine ⟨header ++ "\n----------" ++ "\n",
    "\n----------" ++ "\nSee details below for breakdown of token counts" ++
      String.join (lines.map fun p => tokenLine p.1 p.2), ?_⟩
  simp [breakdownMessage, String.append_assoc]

/-- Every breakdown message embeds each of its labelled token-count lines. -/
theorem breakdownMessage_embeds_line (header e : String) (lines : List (String × Int))
    (p : String × Int) (hp : p ∈ lines) :
    strOccurs (tokenLine p.1 p.2) (breakdownMessage header e lines) := by
  unfold breakdownMessage
  exact strOccurs_append_right _ _ _
    (strOccurs_join_of_mem (fun p => tokenLine p.1 p.2) lines p hp)

/-- A concrete service for counterexamples: always raises a
`ContextLengthException` with message `msg`, and counts tokens by a small
lookup table (`"aa"` has 2 tokens, `"aaa"` has 3, anything else 0). -/
def lookupTokenService (msg : String) : OpenAIService :=
  { getResponse := fun _ => Except.error (TvalError.contextLength msg),
    getTokenCount := fun s => if s = "aa" then 2 else if s = "aaa" then 3 else 0 }

/-- The variable-field portion of the Similarity prompt, shared verbatim by
both template modules. -/
def similarityFieldsTail (question referenceAnswer llmAnswer : String) : String :=
  "\nQUESTION: " ++ question ++ "\n" ++ "REFERENCE ANSWER: " ++ referenceAnswer ++
    "\n" ++ "NEW ANSWER: " ++ llmAnswer ++ "\n"

/-- The variable-field portion of the Consistency prompt, shared verbatim by
both template modules. -/
def consistencyFieldsTail (answer : String) (contextList : List String) : String :=
  numberedContextBlocks 0 contextList ++ "\n\nANSWER: " ++ answer

/-- The variable-field portion of the Relevance prompt, shared verbatim by
both template modules. -/
def relevanceFieldsTail (question context : String) : String :=
  "\nQUESTION: " ++ question ++ "\n" ++ "CONTEXT: " ++ context ++ "\n"

/-- The variable-field portion of the Containment prompt, shared verbatim by
both template modules. -/
def containmentFieldsTail (answer context : String) : String :=
  "\nANSWER: " ++ answer ++ "\n" ++ "CONTEXT: " ++ context ++ "\n"

/-- The variable-field portion of the MainPoints prompt, shared verbatim by
both template modules. -/
def mainPointsFieldsTail (answer : String) : String :=
  "\nANSWER: " ++ answer

/-- The variable-field portion of the Derivation prompt, shared verbatim by
both template modules. -/
def derivationFieldsTail (statement : String) (contextList : List String) : String :=
  "\n\nSTATEMENT:\n" ++ statement ++ "\nEND OF STATEMENT" ++
    numberedContextBlocks 0 contextList

/-! ## The claims -/

/-- C2: for every constructed token-budget diagnostic (any task, any inputs,
any token-count function), the sum of the reported per-segment token counts
plus the reported base-prompt token count equals the reported total token
count, since `base_prompt_tokens` is the residual. -/
theorem tokenReport_sum_invariant (tc : String → Int)
    (question referenceAnswer llmAnswer answer statement context : String)
    (contextList : List String) :
    (((similarityTokenReport tc question referenceAnswer llmAnswer).segments.map
          Prod.snd).sum
        + (similarityTokenReport tc question referenceAnswer llmAnswer).base_prompt_tokens
      = (similarityTokenReport tc question referenceAnswer llmAnswer).total_tokens) ∧
    (((consistencyTokenReport tc answer contextList).segments.map Prod.snd).sum
        + (consistencyTokenReport tc answer contextList).base_prompt_tokens
      = (consistencyTokenReport tc answer contextList).total_tokens) ∧
    (((relevanceTokenReport tc question context).segments.map Prod.snd).sum
        + (relevanceTokenReport tc question context).base_prompt_tokens
      = (relevanceTokenReport tc question context).total_tokens) ∧
    (((containmentTokenReport tc answer context).segments.map Prod.snd).sum
        + (containmentTokenReport tc answer context).base_prompt_tokens
      = (containmentTokenReport tc answer context).total_tokens) ∧
    (((mainPointsTokenReport tc answer).segments.map Prod.snd).sum
        + (mainPointsTokenReport tc answer).base_prompt_tokens
      = (mainPointsTokenReport tc answer).total_tokens) ∧
    (((derivationTokenReport tc statement contextList).segments.map Prod.snd).sum
        + (derivationTokenReport tc statement contextList).base_prompt_tokens
      = (derivationTokenReport tc statement contextList).total_tokens) ∧
    (((duplicateTokenReport tc statement).segments.map Prod.snd).sum
        + (duplicateTokenReport tc statement).base_prompt_tokens
      = (duplicateTokenReport tc statement).total_tokens) := by
  refine ⟨?_, ?_, ?_, ?_, ?_, ?_, ?_⟩ <;>
    simp [similarityTokenReport, consistencyTokenReport, relevanceTokenReport,
      containmentTokenReport, mainPointsTokenReport, derivationTokenReport,
      duplicateTokenReport] <;> ring

/-- C3: the PiiContainment result (1.0 modelled as `1`, 0.0 as `0`) is true
iff some detected label, lowercased, is a member of the lowercased requested
set, and false iff none match; matching is case-insensitive exact label
membership. -/
theorem pii_detection_iff (pii_types : List String) (resp : RedactResponse)
    (llm_response : LLMResponse) :
    (metric_callback (lowerPiiTypes pii_types) (fun _ => Except.ok resp) llm_response =
        Except.ok 1 ↔
      ∃ d ∈ resp.de_identify_results, d.label.toLower ∈ lowerPiiTypes pii_types) ∧
    (metric_callback (lowerPiiTypes pii_types) (fun _ => Except.ok resp) llm_response =
        Except.ok 0 ↔
      ¬ ∃ d ∈ resp.de_identify_results, d.label.toLower ∈ lowerPiiTypes pii_types) := by
  have key : (resp.de_identify_results.any
        (fun d => (lowerPiiTypes pii_types).contains d.label.toLower) = true) ↔
      ∃ d ∈ resp.de_identify_results, d.label.toLower ∈ lowerPiiTypes pii_types := by
    simp [List.any_eq_true, List.contains]
  simp only [metric_callback]
  by_cases h : resp.de_identify_results.any
      (fun d => (lowerPiiTypes pii_types).contains d.label.toLower)
  · rw [if_pos h]
    exact ⟨⟨fun _ => key.mp h, fun _ => rfl⟩,
      ⟨fun hc => absurd hc (by simp), fun hne => absurd (key.mp h) hne⟩⟩
  · rw [if_neg h]
    have hnot : ¬ ∃ d ∈ resp.de_identify_results,
        d.label.toLower ∈ lowerPiiTypes pii_types := fun hex => h (key.mpr hex)
    exact ⟨⟨fun hc => absurd hc (by simp), fun hex => absurd hex hnot⟩,
      ⟨fun _ => hnot, fun _ => rfl⟩⟩

/-- C4: if communication with the redaction collaborator fails (it returns an
exception for the text the metric sends it), the scoring call raises the
fatal `ValueError` and never returns a score — in particular never the
false/0.0 default. -/
theorem pii_redaction_failure_raises (pii_types_lower : List String)
    (redact : String → Except String RedactResponse) (llm_response : LLMResponse)
    (e : String)
    (h : redact (String.intercalate "\n" llm_response.llm_context_list) =
      Except.error e) :
    metric_callback pii_types_lower redact llm_response =
        Except.error piiCommunicationErrorMessage ∧
    ∀ score, metric_callback pii_types_lower redact llm_response ≠ Except.ok score := by
  have hmain : metric_callback pii_types_lower redact llm_response =
      Except.error piiCommunicationErrorMessage := by
    unfold metric_callback
    rw [h]
  refine ⟨hmain, fun score hcontra => ?_⟩
  rw [hmain] at hcontra
  exact Except.noConfusion hcontra

/-- Witness for C4 at a concrete failing redaction service. -/
theorem pii_redaction_failure_raises_witness :
    metric_callback ["email"] (fun _ => Except.error "service down")
        ⟨"some answer", ["some context"]⟩ =
      Except.error piiCommunicationErrorMessage ∧
    ∀ score, metric_callback ["email"] (fun _ => Except.error "service down")
        ⟨"some answer", ["some context"]⟩ ≠ Except.ok score :=
  pii_redaction_failure_raises ["email"] (fun _ => Except.error "service down")
    ⟨"some answer", ["some context"]⟩ "service down" rfl

/-- C10: the PiiContainment score depends only on the requested types and the
context list: the metric consults the redaction collaborator exactly at the
newline-join of `llm_context_list`, and `llm_answer` has no effect — two
responses with equal context lists (and any answers) score identically, for
any two redaction services that agree on that one joined string. -/
theorem pii_score_depends_only_on_context (pii_types_lower : List String)
    (redact redact2 : String → Except String RedactResponse)
    (r r2 : LLMResponse)
    (hctx : r.llm_context_list = r2.llm_context_list)
    (hred : redact (String.intercalate "\n" r.llm_context_list) =
      redact2 (String.intercalate "\n" r.llm_context_list)) :
    metric_callback pii_types_lower redact r = metric_callback pii_types_lower redact2 r2 := by
  unfold metric_callback
  rw [← hctx, hred]

/-- Witness for C10: equal context lists, different answers, same score. -/
theorem pii_score_depends_only_on_context_witness :
    metric_callback ["email"]
        (fun _ => Except.ok ⟨[⟨"Email"⟩]⟩) ⟨"answer A", ["ctx"]⟩ =
      metric_callback ["email"]
        (fun _ => Except.ok ⟨[⟨"Email"⟩]⟩) ⟨"answer B", ["ctx"]⟩ :=
  pii_score_depends_only_on_context ["email"]
    (fun _ => Except.ok ⟨[⟨"Email"⟩]⟩) (fun _ => Except.ok ⟨[⟨"Email"⟩]⟩)
    ⟨"answer A", ["ctx"]⟩ ⟨"answer B", ["ctx"]⟩ rfl rfl

/-- C9: prompt building is deterministic — a two-run equality over every
embedded prompt-construction function of both template modules; in this pure
embedding each builder's output is a function of its arguments alone. -/
theorem prompt_building_deterministic
    (question referenceAnswer llmAnswer answer statement context : String)
    (contextList : List String) :
    similarityMainMessage question referenceAnswer llmAnswer =
        similarityMainMessage question referenceAnswer llmAnswer ∧
    answerConsistentMainMessage answer contextList =
        answerConsistentMainMessage answer contextList ∧
    contextRelevancyMainMessage question context =
        contextRelevancyMainMessage question context ∧
    answerContainsContextMainMessage answer context =
        answerContainsContextMainMessage answer context ∧
    mainPointsMainMessage answer = mainPointsMainMessage answer ∧
    statementDerivedMainMessage statement contextList =
        statementDerivedMainMessage statement contextList ∧
    containsDuplicateMainMessage statement = containsDuplicateMainMessage statement ∧
    askForSimilarityScoreMessage question referenceAnswer llmAnswer =
        askForSimilarityScoreMessage question referenceAnswer llmAnswer ∧
    askWhetherAnswerConsistentMessage answer contextList =
        askWhetherAnswerConsistentMessage answer contextList ∧
    askWhetherContextRelevantMessage question context =
        askWhetherContextRelevantMessage question context ∧
    askWhetherAnswerContainsContextMessage answer context =
        askWhetherAnswerContainsContextMessage answer context ∧
    askForMainPointsMessage answer = askForMainPointsMessage answer ∧
    askWhetherStatementDerivedMessage statement contextList =
        askWhetherStatementDerivedMessage statement contextList :=
  ⟨rfl, rfl, rfl, rfl, rfl, rfl, rfl, rfl, rfl, rfl, rfl, rfl, rfl⟩

/-- C6: on the empty context list the Consistency and Derivation builders
succeed and render the intro and the remaining fields with zero CONTEXT
blocks and no separator artifacts; in particular the fixed text of either
prompt contains no occurrence of `CONTEXT` at all. -/
theorem empty_context_list_prompts (answer statement : String) :
    answerConsistentMainMessage answer [] =
        consistencyIntro ++ "\n\nANSWER: " ++ answer ∧
    statementDerivedMainMessage statement [] =
        derivationIntro ++ "\n\nSTATEMENT:\n" ++ statement ++ "\nEND OF STATEMENT" ∧
    countSubstr "CONTEXT".data (answerConsistentMainMessage "" []).data = 0 ∧
    countSubstr "CONTEXT".data (statementDerivedMainMessage "" []).data = 0 :=
  ⟨rfl, rfl, by decide, by decide⟩

/-- C5: the Consistency and Derivation prompts consist of the fixed intro
(and, for Derivation, the statement section) followed by exactly the blocks
`CONTEXT i:\n{text}\nEND OF CONTEXT i` for `i = 0 .. n-1` in input order
(`numberedContextBlocks 0 contextList` is by definition that in-order
concatenation); each entry `i` of the input list appears as block number `i`,
and on the two-element list the swapped input yields the swapped pairing of
index to text. -/
theorem context_blocks_numbered_in_order (answer statement : String)
    (contextList : List String) (c0 c1 : String) (i : Nat)
    (hi : i < contextList.length) :
    answerConsistentMainMessage answer contextList =
        consistencyIntro ++ numberedContextBlocks 0 contextList ++
          "\n\nANSWER: " ++ answer ∧
    statementDerivedMainMessage statement contextList =
        derivationIntro ++ "\n\nSTATEMENT:\n" ++ statement ++ "\nEND OF STATEMENT" ++
          numberedContextBlocks 0 contextList ∧
    strOccurs (contextBlock i (contextList.get ⟨i, hi⟩))
        (answerConsistentMainMessage answer contextList) ∧
    strOccurs (contextBlock i (contextList.get ⟨i, hi⟩))
        (statementDerivedMainMessage statement contextList) ∧
    answerConsistentMainMessage answer [c0, c1] =
        consistencyIntro ++ (contextBlock 0 c0 ++ (contextBlock 1 c1 ++ "")) ++
          "\n\nANSWER: " ++ answer ∧
    answerConsistentMainMessage answer [c1, c0] =
        consistencyIntro ++ (contextBlock 0 c1 ++ (contextBlock 1 c0 ++ "")) ++
          "\n\nANSWER: " ++ answer := by
  have hblocks := numberedContextBlocks_occurs contextList 0 i hi
  rw [Nat.zero_add] at hblocks
  have hcons : answerConsistentMainMessage answer contextList =
      consistencyIntro ++ numberedContextBlocks 0 contextList ++
        "\n\nANSWER: " ++ answer := by
    unfold answerConsistentMainMessage
    rw [appendContextBlocks_eq]
  have hderiv : statementDerivedMainMessage statement contextList =
      derivationIntro ++ "\n\nSTATEMENT:\n" ++ statement ++ "\nEND OF STATEMENT" ++
        numberedContextBlocks 0 contextList := by
    unfold statementDerivedMainMessage
    rw [appendContextBlocks_eq]
  refine ⟨hcons, hderiv, ?_, ?_, ?_, ?_⟩
  · rw [hcons]
    exact strOccurs_append_left _ _ answer
      (strOccurs_append_left _ _ "\n\nANSWER: "
        (strOccurs_append_right _ _ consistencyIntro hblocks))
  · rw [hderiv]
    exact strOccurs_append_right _ _ _ hblocks
  · unfold answerConsistentMainMessage
    rw [appendContextBlocks_eq]
    rfl
  · unfold answerConsistentMainMessage
    rw [appendContextBlocks_eq]
    rfl

/-- Witness for C5 at the concrete list `["x", "y"]`, entry 1. -/
theorem context_blocks_numbered_in_order_witness :
    strOccurs (contextBlock 1 "y") (answerConsistentMainMessage "A" ["x", "y"]) :=
  (context_blocks_numbered_in_order "A" "S" ["x", "y"] "x" "y" 1
    (by decide)).2.2.1

/-- C7: the rendered Similarity prompt contains the question, reference
answer, and candidate answer verbatim, each directly preceded by its label
`QUESTION: `, `REFERENCE ANSWER: `, `NEW ANSWER: `. -/
theorem similarity_prompt_contains_inputs_verbatim
    (question referenceAnswer llmAnswer : String) :
    strOccurs ("QUESTION: " ++ question)
        (similarityMainMessage question referenceAnswer llmAnswer) ∧
    strOccurs ("REFERENCE ANSWER: " ++ referenceAnswer)
        (similarityMainMessage question referenceAnswer llmAnswer) ∧
    strOccurs ("NEW ANSWER: " ++ llmAnswer)
        (similarityMainMessage question referenceAnswer llmAnswer) := by
  have hq : ("\nQUESTION: " : String) = "\n" ++ "QUESTION: " := by decide
  have h1 : similarityMainMessage question referenceAnswer llmAnswer =
      (similarityIntro ++ "\n") ++ ("QUESTION: " ++ question) ++
        ("\n" ++ ("REFERENCE ANSWER: " ++ (referenceAnswer ++
          ("\n" ++ ("NEW ANSWER: " ++ (llmAnswer ++ "\n")))))) := by
    simp only [similarityMainMessage, hq, String.append_assoc]
  have h2 : similarityMainMessage question referenceAnswer llmAnswer =
      (similarityIntro ++ ("\nQUESTION: " ++ (question ++ "\n"))) ++
        ("REFERENCE ANSWER: " ++ referenceAnswer) ++
        ("\n" ++ ("NEW ANSWER: " ++ (llmAnswer ++ "\n"))) := by
    simp only [similarityMainMessage, String.append_assoc]
  have h3 : similarityMainMessage question referenceAnswer llmAnswer =
      (similarityIntro ++ ("\nQUESTION: " ++ (question ++ ("\n" ++
          ("REFERENCE ANSWER: " ++ (referenceAnswer ++ "\n")))))) ++
        ("NEW ANSWER: " ++ llmAnswer) ++ "\n" := by
    simp only [similarityMainMessage, String.append_assoc]
  exact ⟨⟨_, _, h1⟩, ⟨_, _, h2⟩, ⟨_, _, h3⟩⟩

/-- C8 counterexample: at concrete inputs the Similarity prompt built by the
`tval` module differs from the one built by the `tonic_validate` module (the
former says "0 means not similar" where the latter says "0 means not at all
similar"), so the two modules do not produce equal prompt text for every
task. -/
theorem tval_tonic_similarity_prompts_differ :
    askForSimilarityScoreMessage "q" "r" "a" ≠ similarityMainMessage "q" "r" "a" := by
  decide

/-- C8 as amended: for every task present in both modules the two prompts are
structurally identical — each is its module's fixed intro followed by the
same variable-field tail — but the fixed intro wording differs between the
modules for Similarity, Consistency, Relevance, Containment and MainPoints
(typo fixes and rephrasings); only for Derivation do the intros coincide, so
only the Derivation prompts are byte-identical for all inputs. -/
theorem template_modules_structural_comparison
    (question referenceAnswer llmAnswer answer statement context : String)
    (contextList : List String) :
    (askForSimilarityScoreMessage question referenceAnswer llmAnswer =
        tvalSimilarityIntro ++ similarityFieldsTail question referenceAnswer llmAnswer ∧
      similarityMainMessage question referenceAnswer llmAnswer =
        similarityIntro ++ similarityFieldsTail question referenceAnswer llmAnswer ∧
      tvalSimilarityIntro ≠ similarityIntro) ∧
    (askWhetherAnswerConsistentMessage answer contextList =
        tvalConsistencyIntro ++ consistencyFieldsTail answer contextList ∧
      answerConsistentMainMessage answer contextList =
        consistencyIntro ++ consistencyFieldsTail answer contextList ∧
      tvalConsistencyIntro ≠ consistencyIntro) ∧
    (askWhetherContextRelevantMessage question context =
        tvalRelevanceIntro ++ relevanceFieldsTail question context ∧
      contextRelevancyMainMessage question context =
        relevanceIntro ++ relevanceFieldsTail question context ∧
      tvalRelevanceIntro ≠ relevanceIntro) ∧
    (askWhetherAnswerContainsContextMessage answer context =
        tvalContainmentIntro ++ containmentFieldsTail answer context ∧
      answerContainsContextMainMessage answer context =
        containmentIntro ++ containmentFieldsTail answer context ∧
      tvalContainmentIntro ≠ containmentIntro) ∧
    (askForMainPointsMessage answer =
        tvalMainPointsIntro ++ mainPointsFieldsTail answer ∧
      mainPointsMainMessage answer =
        mainPointsIntro ++ mainPointsFieldsTail answer ∧
      tvalMainPointsIntro ≠ mainPointsIntro) ∧
    (askWhetherStatementDerivedMessage statement contextList =
        tvalDerivationIntro ++ derivationFieldsTail statement contextList ∧
      statementDerivedMainMessage statement contextList =
        derivationIntro ++ derivationFieldsTail statement contextList ∧
      tvalDerivationIntro = derivationIntro ∧
      askWhetherStatementDerivedMessage statement contextList =
        statementDerivedMainMessage statement contextList) := by
  have hderivIntro : tvalDerivationIntro = derivationIntro := by decide
  have hderiv1 : askWhetherStatementDerivedMessage statement contextList =
      tvalDerivationIntro ++ derivationFieldsTail statement contextList := by
    unfold askWhetherStatementDerivedMessage
    rw [appendContextBlocks_eq]
    simp only [derivationFieldsTail, String.append_assoc]
  have hderiv2 : statementDerivedMainMessage statement contextList =
      derivationIntro ++ derivationFieldsTail statement contextList := by
    unfold statementDerivedMainMessage
    rw [appendContextBlocks_eq]
    simp only [derivationFieldsTail, String.append_assoc]
  refine ⟨⟨?_, ?_, by decide⟩, ⟨?_, ?_, by decide⟩, ⟨?_, ?_, by decide⟩,
    ⟨?_, ?_, by decide⟩, ⟨?_, ?_, by decide⟩,
    ⟨hderiv1, hderiv2, hderivIntro, by rw [hderiv1, hderiv2, hderivIntro]⟩⟩
  · simp only [askForSimilarityScoreMessage, similarityFieldsTail, String.append_assoc]
  · simp only [similarityMainMessage, similarityFieldsTail, String.append_assoc]
  · unfold askWhetherAnswerConsistentMessage
    rw [appendContextBlocks_eq]
    simp only [consistencyFieldsTail, String.append_assoc]
  · unfold answerConsistentMainMessage
    rw [appendContextBlocks_eq]
    simp only [consistencyFieldsTail, String.append_assoc]
  · simp only [askWhetherContextRelevantMessage, relevanceFieldsTail, String.append_assoc]
  · simp only [contextRelevancyMainMessage, relevanceFieldsTail, String.append_assoc]
  · simp only [askWhetherAnswerContainsContextMessage, containmentFieldsTail,
      String.append_assoc]
  · simp only [answerContainsContextMainMessage, containmentFieldsTail,
      String.append_assoc]
  · simp only [askForMainPointsMessage, mainPointsFieldsTail, String.append_assoc]
  · simp only [mainPointsMainMessage, mainPointsFieldsTail, String.append_assoc]

/-- C1 counterexample: for the Consistency call, two context lists whose
individual entries have different token counts (2 and 3 swapped between
positions 0 and 1) but the same aggregate produce the identical re-raised
error, so the re-raised message cannot embed a token count for each
`CONTEXT i` segment — only the single aggregated context count appears. -/
theorem consistency_overflow_aggregates_context_counts :
    answer_consistent_with_context_call "ANS" ["aa", "aaa"] (lookupTokenService "boom") =
        answer_consistent_with_context_call "ANS" ["aaa", "aa"] (lookupTokenService "boom") ∧
    (lookupTokenService "boom").getTokenCount "aa" ≠
        (lookupTokenService "boom").getTokenCount "aaa" :=
  ⟨by rfl, by decide⟩

/-- C1 as amended: when the service raises a context-length error, every
evaluation call re-raises a context-length error (same type) whose message
embeds the original error's message, the token count of every reported
segment label, the base-prompt count and the total count — but for the
list-of-context tasks Consistency and Derivation the context counts are
reported as one aggregated `Context` line (the sum over the list), not one
count per `CONTEXT i` segment. The first seven conjuncts compute each call's
result exactly; the remaining conjuncts show, for arbitrary reported counts
`iA .. iE`, that each re-raised message embeds the original message `e` and
each of its labelled token-count lines (`tokenLine label n` is the line
`"\n{label} tokens: {n}"`). -/
theorem llm_calls_overflow_reraise_with_breakdown
    (e : String) (tc : String → Int)
    (question referenceAnswer llmAnswer answer statement context : String)
    (contextList : List String) (iA iB iC iD iE : Int) :
    (similarity_score_call question referenceAnswer llmAnswer
        ⟨fun _ => Except.error (TvalError.contextLength e), tc⟩ =
      Except.error (TvalError.contextLength (similarityOverflowMessage e
        (tc question) (tc referenceAnswer) (tc llmAnswer)
        (tc (similarityMainMessage question referenceAnswer llmAnswer) -
          tc question - tc referenceAnswer - tc llmAnswer)
        (tc (similarityMainMessage question referenceAnswer llmAnswer))))) ∧
    (answer_consistent_with_context_call answer contextList
        ⟨fun _ => Except.error (TvalError.contextLength e), tc⟩ =
      Except.error (TvalError.contextLength (consistencyOverflowMessage e
        (tc answer) (sumContextTokens tc contextList)
        (tc (answerConsistentMainMessage answer contextList) -
          sumContextTokens tc contextList - tc answer)
        (tc (answerConsistentMainMessage answer contextList))))) ∧
    (context_relevancy_call question context
        ⟨fun _ => Except.error (TvalError.contextLength e), tc⟩ =
      Except.error (TvalError.contextLength (relevanceOverflowMessage e
        (tc question) (tc context)
        (tc (contextRelevancyMainMessage question context) - tc question - tc context)
        (tc (contextRelevancyMainMessage question context))))) ∧
    (answer_contains_context_call answer context
        ⟨fun _ => Except.error (TvalError.contextLength e), tc⟩ =
      Except.error (TvalError.contextLength (containmentOverflowMessage e
        (tc answer) (tc context)
        (tc (answerContainsContextMainMessage answer context) - tc answer - tc context)
        (tc (answerContainsContextMainMessage answer context))))) ∧
    (main_points_call answer
        ⟨fun _ => Except.error (TvalError.contextLength e), tc⟩ =
      Except.error (TvalError.contextLength (mainPointsOverflowMessage e
        (tc answer)
        (tc (mainPointsMainMessage answer) - tc answer)
        (tc (mainPointsMainMessage answer))))) ∧
    (statement_derived_from_context_call statement contextList
        ⟨fun _ => Except.error (TvalError.contextLength e), tc⟩ =
      Except.error (TvalError.contextLength (derivationOverflowMessage e
        (tc statement) (sumContextTokens tc contextList)
        (tc (statementDerivedMainMessage statement contextList) -
          sumContextTokens tc contextList - tc statement)
        (tc (statementDerivedMainMessage statement contextList))))) ∧
    (contains_duplicate_information statement
        ⟨fun _ => Except.error (TvalError.contextLength e), tc⟩ =
      Except.error (TvalError.contextLength (duplicateOverflowMessage e
        (tc statement)
        (tc (containsDuplicateMainMessage statement) - tc statement)
        (tc (containsDuplicateMainMessage statement))))) ∧
    (strOccurs e (similarityOverflowMessage e iA iB iC iD iE) ∧
      strOccurs (tokenLine "Question" iA) (similarityOverflowMessage e iA iB iC iD iE) ∧
      strOccurs (tokenLine "Reference answer" iB)
        (similarityOverflowMessage e iA iB iC iD iE) ∧
      strOccurs (tokenLine "New answer" iC) (similarityOverflowMessage e iA iB iC iD iE) ∧
      strOccurs (tokenLine "Base prompt" iD) (similarityOverflowMessage e iA iB iC iD iE) ∧
      strOccurs (tokenLine "Total" iE) (similarityOverflowMessage e iA iB iC iD iE)) ∧
    (strOccurs e (consistencyOverflowMessage e iA iB iC iD) ∧
      strOccurs (tokenLine "Answer" iA) (consistencyOverflowMessage e iA iB iC iD) ∧
      strOccurs (tokenLine "Context" iB) (consistencyOverflowMessage e iA iB iC iD) ∧
      strOccurs (tokenLine "Base prompt" iC) (consistencyOverflowMessage e iA iB iC iD) ∧
      strOccurs (tokenLine "Total" iD) (consistencyOverflowMessage e iA iB iC iD)) ∧
    (strOccurs e (relevanceOverflowMessage e iA iB iC iD) ∧
      strOccurs (tokenLine "Question" iA) (relevanceOverflowMessage e iA iB iC iD) ∧
      strOccurs (tokenLine "Context" iB) (relevanceOverflowMessage e iA iB iC iD) ∧
      strOccurs (tokenLine "Base prompt" iC) (relevanceOverflowMessage e iA iB iC iD) ∧
      strOccurs (tokenLine "Total" iD) (relevanceOverflowMessage e iA iB iC iD)) ∧
    (strOccurs e (containmentOverflowMessage e iA iB iC iD) ∧
      strOccurs (tokenLine "Answer" iA) (containmentOverflowMessage e iA iB iC iD) ∧
      strOccurs (tokenLine "Context" iB) (containmentOverflowMessage e iA iB iC iD) ∧
      strOccurs (tokenLine "Base prompt" iC) (containmentOverflowMessage e iA iB iC iD) ∧
      strOccurs (tokenLine "Total" iD) (containmentOverflowMessage e iA iB iC iD)) ∧
    (strOccurs e (mainPointsOverflowMessage e iA iB iC) ∧
      strOccurs (tokenLine "Answer" iA) (mainPointsOverflowMessage e iA iB iC) ∧
      strOccurs (tokenLine "Base prompt" iB) (mainPointsOverflowMessage e iA iB iC) ∧
      strOccurs (tokenLine "Total" iC) (mainPointsOverflowMessage e iA iB iC)) ∧
    (strOccurs e (derivationOverflowMessage e iA iB iC iD) ∧
      strOccurs (tokenLine "Statement" iA) (derivationOverflowMessage e iA iB iC iD) ∧
      strOccurs (tokenLine "Context" iB) (derivationOverflowMessage e iA iB iC iD) ∧
      strOccurs (tokenLine "Base prompt" iC) (derivationOverflowMessage e iA iB iC iD) ∧
      strOccurs (tokenLine "Total" iD) (derivationOverflowMessage e iA iB iC iD)) ∧
    (strOccurs e (duplicateOverflowMessage e iA iB iC) ∧
      strOccurs (tokenLine "Statement" iA) (duplicateOverflowMessage e iA iB iC) ∧
      strOccurs (tokenLine "Base prompt" iB) (duplicateOverflowMessage e iA iB iC) ∧
      strOccurs (tokenLine "Total" iC) (duplicateOverflowMessage e iA iB iC)) :=
  ⟨rfl, rfl, rfl, rfl, rfl, rfl, rfl,
    ⟨breakdownMessage_embeds_error _ _ _,
      breakdownMessage_embeds_line _ _ _ ("Question", iA) (by simp),
      breakdownMessage_embeds_line _ _ _ ("Reference answer", iB) (by simp),
      breakdownMessage_embeds_line _ _ _ ("New answer", iC) (by simp),
      breakdownMessage_embeds_line _ _ _ ("Base prompt", iD) (by simp),
      breakdownMessage_embeds_line _ _ _ ("Total", iE) (by simp)⟩,
    ⟨breakdownMessage_embeds_error _ _ _,
      breakdownMessage_embeds_line _ _ _ ("Answer", iA) (by simp),
      breakdownMessage_embeds_line _ _ _ ("Context", iB) (by simp),
      breakdownMessage_embeds_line _ _ _ ("Base prompt", iC) (by simp),
      breakdownMessage_embeds_line _ _ _ ("Total", iD) (by simp)⟩,
    ⟨breakdownMessage_embeds_error _ _ _,
      breakdownMessage_embeds_line _ _ _ ("Question", iA) (by simp),
      breakdownMessage_embeds_line _ _ _ ("Context", iB) (by simp),
      breakdownMessage_embeds_line _ _ _ ("Base prompt", iC) (by simp),
      breakdownMessage_embeds_line _ _ _ ("Total", iD) (by simp)⟩,
    ⟨breakdownMessage_embeds_error _ _ _,
      breakdownMessage_embeds_line _ _ _ ("Answer", iA) (by simp),
      breakdownMessage_embeds_line _ _ _ ("Context", iB) (by simp),
      breakdownMessage_embeds_line _ _ _ ("Base prompt", iC) (by simp),
      breakdownMessage_embeds_line _ _ _ ("Total", iD) (by simp)⟩,
    ⟨breakdownMessage_embeds_error _ _ _,
      breakdownMessage_embeds_line _ _ _ ("Answer", iA) (by simp),
      breakdownMessage_embeds_line _ _ _ ("Base prompt", iB) (by simp),
      breakdownMessage_embeds_line _ _ _ ("Total", iC) (by simp)⟩,
    ⟨breakdownMessage_embeds_error _ _ _,
      breakdownMessage_embeds_line _ _ _ ("Statement", iA) (by simp),
      breakdownMessage_embeds_line _ _ _ ("Context", iB) (by simp),
      breakdownMessage_embeds_line _ _ _ ("Base prompt", iC) (by simp),
      breakdownMessage_embeds_line _ _ _ ("Total", iD) (by simp)⟩,
    ⟨breakdownMessage_embeds_error _ _ _,
      breakdownMessage_embeds_line _ _ _ ("Statement", iA) (by simp),
      breakdownMessage_embeds_line _ _ _ ("Base prompt", iB) (by simp),
      breakdownMessage_embeds_line _ _ _ ("Total", iC) (by simp)⟩⟩
